import Mathlib

/-!
Verification of the cagent configuration-resolution pipeline (src/config.go).

The Go source is shallowly embedded: Go structs become Lean structures,
float64 fields become `Rat`, int fields become `Int`, uint32 fields become
`Nat` (with explicit `% 2^32` where Go truncates), strings stay `String`,
in-place mutation becomes explicit state passing, and fallible functions
return `Except`/`Option`.  Host-OS dependence (`runtime.GOOS`) and the
process environment (`os.LookupEnv`) become explicit parameters.
-/

namespace Cagent

/-- The host operating system, as branched on by `runtime.GOOS` in the
source: `"windows"`, `"darwin"`, and everything else (the `default` arm). -/
inductive GoOS where
  | windows
  | darwin
  | other
deriving DecidableEq, Repr

/-! ## Constants (src/config.go lines 24-42) -/

def IOModeFile : String := "file"
def IOModeHTTP : String := "http"

def OperationModeFull : String := "full"
def OperationModeMinimal : String := "minimal"
def OperationModeHeartbeat : String := "heartbeat"

def minIntervalValue : Rat := 30
def minHeartbeatIntervalValue : Rat := 5

def minHubRequestTimeout : Int := 1
def maxHubRequestTimeout : Int := 600

def minSystemUpdatesCheckInterval : Nat := 300
def minSelfUpdatesCheckInterval : Nat := 600

def operationModes : List String := [OperationModeFull, OperationModeMinimal, OperationModeHeartbeat]

/-- Modelled from the spec: `common.StrInSlice` (pkg/common, not under src/)
tests membership of a string in a slice; the spec says the operation mode
"must be one of a fixed enumerated set". -/
def strInSlice (s : String) (l : List String) : Bool := l.contains s

/-! ## Data model (src/config.go lines 53-223) -/

/-- `LogLevel` is declared outside src/config.go; it is a string-valued
enumeration ("debug"/"info"/"error").  Modelled as a plain string. -/
abbrev LogLevel := String

def LogLevelError : LogLevel := "error"

structure MinValuableConfig where
  LogLevel : LogLevel
  IOMode : String
  OutFile : String
  HubURL : String
  HubUser : String
  HubPassword : String
deriving DecidableEq, Repr

structure LogsFilesConfig where
  HubFile : String
deriving DecidableEq, Repr

structure CPUUtilisationAnalysisConfig where
  Threshold : Rat
  Function : String
  Metric : String
  GatheringMode : String
  ReportProcesses : Int
  TrailingProcessAnalysisMinutes : Int
deriving DecidableEq, Repr

structure StorCLIConfig where
  BinaryPath : String
deriving DecidableEq, Repr

structure UpdatesMonitoringConfig where
  Enabled : Bool
  FetchTimeout : Nat
  CheckInterval : Nat
deriving DecidableEq, Repr

structure DockerMonitoringConfig where
  Enabled : Bool
deriving DecidableEq, Repr

structure UpdatesConfig where
  Enabled : Bool
  URL : String
  CheckInterval : Nat
deriving DecidableEq, Repr

/-- `jobmon.Severity` (pkg/jobmon, not under src/) is a string-valued type. -/
abbrev Severity := String

def SeverityAlert : Severity := "alert"

/-- Modelled from the spec: `jobmon.IsValidJobMonitoringSeverity` is not
under src/; the spec (rule 7) and the field comment say severity "must be
one of a fixed enumerated set": alert, warning or none. -/
def isValidJobMonitoringSeverity (s : Severity) : Bool :=
  s = "alert" ∨ s = "warning" ∨ s = "none"

structure JobMonitoringConfig where
  SpoolDirPath : String
  RecordStdErr : Bool
  RecordStdOut : Bool
  Severity : Severity
deriving DecidableEq, Repr

/-- Modelled from the spec: `mysql.Config` (pkg/monitoring/mysql, not under
src/) is opaque here; the spec says only that its validator is "invoked and
their errors wrapped with a naming prefix identifying the subsystem", so the
subsystem carries an abstract validation verdict.  Its zero value (the
default used by `NewConfig`, which never assigns this field) is modelled as
valid. -/
structure MysqlConfig where
  validationError : Option String
deriving DecidableEq, Repr

def MysqlConfig.Validate (c : MysqlConfig) : Option String := c.validationError

/-- Modelled from the spec: `processes.Config` (pkg/monitoring/processes,
not under src/) is never inspected by the pipeline in scope; it is opaque. -/
abbrev ProcessesConfig := Unit

def processesGetDefaultConfig : ProcessesConfig := ()

structure Config where
  OperationMode : String
  Interval : Rat
  HeartbeatInterval : Rat
  PidFile : String
  LogFile : String
  LogSyslog : String
  MinValuable : MinValuableConfig
  HubGzip : Bool
  HubRequestTimeout : Int
  HubProxy : String
  HubProxyUser : String
  HubProxyPassword : String
  CPULoadDataGather : List String
  CPUUtilDataGather : List String
  CPUUtilTypes : List String
  FSTypeInclude : List String
  FSPathExclude : List String
  FSPathExcludeRecurse : Bool
  FSMetrics : List String
  FSIdentifyMountpointsByDevice : Bool
  NetInterfaceExclude : List String
  NetInterfaceExcludeRegex : List String
  NetInterfaceExcludeDisconnected : Bool
  NetInterfaceExcludeLoopback : Bool
  NetMetrics : List String
  NetInterfaceMaxSpeed : String
  SystemFields : List String
  VirtualMachinesStat : List String
  HardwareInventory : Bool
  DiscoverAutostartingServicesOnly : Bool
  CPUUtilisationAnalysis : CPUUtilisationAnalysisConfig
  TemperatureMonitoring : Bool
  SoftwareRAIDMonitoring : Bool
  SMARTMonitoring : Bool
  SMARTCtl : String
  Logs : LogsFilesConfig
  StorCLI : StorCLIConfig
  JobMonitoring : JobMonitoringConfig
  SystemUpdatesChecks : UpdatesMonitoringConfig
  MysqlMonitoring : MysqlConfig
  ProcessMonitoring : ProcessesConfig
  Updates : UpdatesConfig
  DockerMonitoring : DockerMonitoringConfig
  MemMonitoring : Bool
  CPUMonitoring : Bool
  FSMonitoring : Bool
  NetMonitoring : Bool
  OnHTTP5xxRetries : Int
  OnHTTP5xxRetryInterval : Rat
deriving DecidableEq, Repr

/-- The deprecated shape re-decoded from old files (src/config.go 145-147).
The Go field has type `int` (64-bit). -/
structure ConfigDeprecated where
  WindowsUpdatesWatcherInterval : Int
deriving DecidableEq, Repr

/-! ## Model of `strconv.ParseFloat` (external standard library)

`GetParsedNetInterfaceMaxSpeed` calls `strconv.ParseFloat(valueStr, 0)`,
which uses 64-bit float semantics.  The model below covers the full
documented acceptance of `ParseFloat`:
- the special spellings recognised first: an optional sign followed by
  "inf" or "infinity", and unsigned "nan", all case-insensitive;
- decimal literals: optional sign, decimal mantissa with optional
  fractional part (at least one digit overall), optional `e`/`E` exponent
  with optional sign;
- hexadecimal literals: optional sign, `0x`/`0X`, hex mantissa with
  optional fractional part, mandatory `p`/`P` binary exponent;
- digit-separating underscores, valid exactly when Go's `underscoreOK`
  accepts them (only between digits, or between the base prefix and a
  digit);
- the range error: a finite literal whose magnitude reaches the float64
  rounding cutoff to infinity (`2^1024 - 2^970`) makes ParseFloat return
  ErrRange, which the caller treats as failure.
Finite in-range values are computed exactly as rationals; the float64
rounding of the mantissa is not modelled (it is exact on every input a
theorem below evaluates).  Values whose magnitude rounds to zero (at or
below `2^-1075`) are kept exact here and accounted for in the sign test
`GoFloatVal.isNonPositive` below. -/

def digitsVal (ds : List Char) : Nat :=
  ds.foldl (fun a c => a * 10 + (c.toNat - 48)) 0

/-- ASCII lower-casing of a character (Go's `lower` for parser letters). -/
def lowerCh (c : Char) : Char :=
  if 65 ≤ c.toNat ∧ c.toNat ≤ 90 then Char.ofNat (c.toNat + 32) else c

def lowerList (cs : List Char) : List Char := cs.map lowerCh

def isHexLetter (c : Char) : Bool :=
  97 ≤ (lowerCh c).toNat && (lowerCh c).toNat ≤ 102

def hexDigitVal (c : Char) : Nat :=
  if c.isDigit then c.toNat - 48 else (lowerCh c).toNat - 87

def hexDigitsVal (ds : List Char) : Nat :=
  ds.foldl (fun a c => a * 16 + hexDigitVal c) 0

def isDigitOrUnd (c : Char) : Bool := c.isDigit || c = '_'

def isHexOrUnd (c : Char) : Bool := c.isDigit || isHexLetter c || c = '_'

def stripUnd (cs : List Char) : List Char := cs.filter (fun c => c ≠ '_')

/-- Go strconv's `underscoreOK`: underscores may appear only between
successive digits, or between the `0x` base prefix and a digit.  The fold
state is Go's `saw` character (`^` start, `0` digit, `_` underscore,
`!` other), with `none` for an already-failed scan. -/
def underscoreOK (cs0 : List Char) : Bool :=
  let cs1 : List Char := match cs0 with
    | '+' :: r => r
    | '-' :: r => r
    | _ => cs0
  let hex : Bool := match cs1 with
    | '0' :: x :: _ => lowerCh x = 'x'
    | _ => false
  let cs2 : List Char := if hex then cs1.drop 2 else cs1
  let saw0 : Char := if hex then '0' else '^'
  match cs2.foldl (fun st c =>
    match st with
    | none => none
    | some saw =>
      if c.isDigit || (hex && isHexLetter c) then some '0'
      else if c = '_' then (if saw = '0' then some '_' else none)
      else if saw = '_' then none
      else some '!') (some saw0) with
  | some saw => saw ≠ '_'
  | none => false

/-- The shape of a successful `strconv.ParseFloat` result: a finite value
(kept exact as a rational), an infinity from the "inf" spellings, or NaN
from the "nan" spelling.  Overflowing literals are not represented here:
they come back with ErrRange and the caller fails. -/
inductive GoFloatVal where
  | finite (q : Rat)
  | posInf
  | negInf
  | nan
deriving DecidableEq, Repr

/-- A finite literal's magnitude reaches the float64 rounding cutoff to
infinity, `2^1024 - 2^970`: ParseFloat reports ErrRange. -/
def float64Overflows (q : Rat) : Bool :=
  (2 ^ 1024 - 2 ^ 970 : Nat) * q.den ≤ q.num.natAbs

/-- A finite literal's magnitude rounds to zero under float64
round-to-nearest-even: at or below half the smallest subnormal,
`2^-1075`. -/
def float64RoundsToZero (q : Rat) : Bool :=
  q.num.natAbs * 2 ^ 1075 ≤ q.den

/-- Wrap an exactly-computed literal value as the ParseFloat outcome:
overflow is ErrRange (failure for the caller), everything else is returned
exactly. -/
def finiteOrRange (q : Rat) : Option GoFloatVal :=
  if float64Overflows q then none else some (.finite q)

/-- The special spellings accepted before number parsing: an optional sign
followed by "inf" or "infinity", case-insensitive, consuming the whole
string; `some neg` reports the sign. -/
def goSpecialInf (cs : List Char) : Option Bool :=
  let neg : Bool := match cs with
    | '-' :: _ => true
    | _ => false
  let r : List Char := match cs with
    | '+' :: r => r
    | '-' :: r => r
    | _ => cs
  if lowerList r = ['i', 'n', 'f'] ∨ lowerList r = ['i', 'n', 'f', 'i', 'n', 'i', 't', 'y'] then
    some neg
  else none

/-- "nan", case-insensitive, unsigned (Go's `special` only accepts NaN
without a sign), consuming the whole string. -/
def goSpecialIsNaN (cs : List Char) : Bool :=
  lowerList cs = ['n', 'a', 'n']

/-- A decimal literal after the optional sign: mantissa digits (underscores
interspersed, validated separately) with optional fractional part and at
least one digit, then an optional `e`/`E` exponent with optional sign and
at least one digit.  The exact rational value is wrapped by
`finiteOrRange`. -/
def goParseDec (neg : Bool) (cs1 : List Char) : Option GoFloatVal :=
  let ip := cs1.takeWhile isDigitOrUnd
  let rest1 := cs1.dropWhile isDigitOrUnd
  let fp : List Char := match rest1 with
    | '.' :: r => r.takeWhile isDigitOrUnd
    | _ => []
  let rest2 : List Char := match rest1 with
    | '.' :: r => r.dropWhile isDigitOrUnd
    | _ => rest1
  let ipd := stripUnd ip
  let fpd := stripUnd fp
  if ipd.isEmpty ∧ fpd.isEmpty then none
  else
    let mantNum : Int :=
      (if neg then -1 else 1) * (digitsVal ipd * 10 ^ fpd.length + digitsVal fpd)
    match rest2 with
    | [] => finiteOrRange (mkRat mantNum (10 ^ fpd.length))
    | e :: r =>
      if lowerCh e = 'e' then
        let epos : Bool := match r with
          | '-' :: _ => false
          | _ => true
        let r1 : List Char := match r with
          | '+' :: rr => rr
          | '-' :: rr => rr
          | _ => r
        let ed := stripUnd (r1.takeWhile isDigitOrUnd)
        let rest3 := r1.dropWhile isDigitOrUnd
        if ed.isEmpty ∨ ¬ rest3.isEmpty then none
        else if epos then finiteOrRange (mkRat (mantNum * 10 ^ digitsVal ed) (10 ^ fpd.length))
        else finiteOrRange (mkRat mantNum (10 ^ fpd.length * 10 ^ digitsVal ed))
      else none

/-- A hexadecimal literal after the optional sign and the `0x` prefix: hex
mantissa digits with optional fractional part and at least one digit, then
the mandatory `p`/`P` binary exponent with optional sign and at least one
decimal digit. -/
def goParseHex (neg : Bool) (cs1 : List Char) : Option GoFloatVal :=
  let ip := cs1.takeWhile isHexOrUnd
  let rest1 := cs1.dropWhile isHexOrUnd
  let fp : List Char := match rest1 with
    | '.' :: r => r.takeWhile isHexOrUnd
    | _ => []
  let rest2 : List Char := match rest1 with
    | '.' :: r => r.dropWhile isHexOrUnd
    | _ => rest1
  let ipd := stripUnd ip
  let fpd := stripUnd fp
  if ipd.isEmpty ∧ fpd.isEmpty then none
  else
    let mantNum : Int :=
      (if neg then -1 else 1) * (hexDigitsVal ipd * 16 ^ fpd.length + hexDigitsVal fpd)
    match rest2 with
    | [] => none
    | p :: r =>
      if lowerCh p = 'p' then
        let epos : Bool := match r with
          | '-' :: _ => false
          | _ => true
        let r1 : List Char := match r with
          | '+' :: rr => rr
          | '-' :: rr => rr
          | _ => r
        let ed := stripUnd (r1.takeWhile isDigitOrUnd)
        let rest3 := r1.dropWhile isDigitOrUnd
        if ed.isEmpty ∨ ¬ rest3.isEmpty then none
        else if epos then finiteOrRange (mkRat (mantNum * 2 ^ digitsVal ed) (16 ^ fpd.length))
        else finiteOrRange (mkRat mantNum (16 ^ fpd.length * 2 ^ digitsVal ed))
      else none

def goParseFloat (s : String) : Option GoFloatVal :=
  let cs := s.toList
  if goSpecialIsNaN cs then some .nan
  else match goSpecialInf cs with
  | some neg => some (if neg then .negInf else .posInf)
  | none =>
    if ¬ underscoreOK cs then none
    else
      let neg : Bool := match cs with
        | '-' :: _ => true
        | _ => false
      let cs1 : List Char := match cs with
        | '+' :: r => r
        | '-' :: r => r
        | _ => cs
      match cs1 with
      | '0' :: x :: r => if lowerCh x = 'x' then goParseHex neg r else goParseDec neg cs1
      | _ => goParseDec neg cs1

/-- The source's `value <= 0.0` test on the parsed float: NaN compares
false against everything in Go (so it passes), +Inf passes, -Inf fails,
and a finite exact value fails exactly when it is ≤ 0 or its magnitude
rounds to (signed) zero. -/
def GoFloatVal.isNonPositive : GoFloatVal → Bool
  | .finite q => q ≤ 0 || float64RoundsToZero q
  | .posInf => false
  | .negInf => true
  | .nan => false

/-- Go's `uint64(x)` conversion from a positive in-range float truncates the
fractional part (`num / den` in integer division); out-of-range
conversions (which no claim exercises) are modelled by reduction modulo
`2^64`. -/
def goUint64OfRat (q : Rat) : Nat := (q.num / (q.den : Int)).toNat % 2 ^ 64

/-- Multiplication of a rational by a natural scale factor, written through
`mkRat` so that it computes by kernel reduction (`Rat.mul` is irreducible);
`ratMulNat q n` is exactly the rational `q * n`. -/
def ratMulNat (q : Rat) (n : Nat) : Rat := mkRat (q.num * n) q.den

/-- `uint64(value * n)` for a parsed float: finite values are scaled and
truncated exactly; `uint64` of ±Inf or NaN is implementation-defined in Go
and modelled as the amd64 result `2^63` (never inspected by a claim). -/
def GoFloatVal.toUint64Scaled : GoFloatVal → Nat → Nat
  | .finite q, n => goUint64OfRat (ratMulNat q n)
  | _, _ => 2 ^ 63

/-! ## GetParsedNetInterfaceMaxSpeed (src/config.go 480-508) -/

/-- The string-level body of `Config.GetParsedNetInterfaceMaxSpeed`.  The Go
code slices bytes; the model slices characters, which agrees with the code
on every string whose parse can succeed (Go float syntax is pure ASCII, so
any non-ASCII input fails in both brands of slicing). -/
def parseNetInterfaceMaxSpeed (v : String) : Except String Nat :=
  if v = "" then .ok 0
  else if v.length < 2 then .error "cant parse"
  else
    match goParseFloat ⟨v.toList.dropLast⟩ with
    | none => .error "strconv: invalid syntax or value out of range"
    | some value =>
      if value.isNonPositive then .error "should be > 0.0"
      else if (v.toList.getLast?).getD ' ' = 'K' then .ok (value.toUint64Scaled 1000)
      else if (v.toList.getLast?).getD ' ' = 'M' then
        .ok (value.toUint64Scaled (1000 * 1000))
      else if (v.toList.getLast?).getD ' ' = 'G' then
        .ok (value.toUint64Scaled (1000 * 1000 * 1000))
      else .error "unsupported unit"

def Config.GetParsedNetInterfaceMaxSpeed (cfg : Config) : Except String Nat :=
  parseNetInterfaceMaxSpeed cfg.NetInterfaceMaxSpeed

/-! ## Nested validators (src/config.go 172-223) -/

/-- src/config.go 172-183.  The Go method mutates its receiver in place and
returns an error; the model returns the error alongside the updated value.
On the error path the receiver is returned unchanged, exactly as in the
source (the clamp happens after the error return). -/
def UpdatesMonitoringConfig.Validate (l : UpdatesMonitoringConfig) :
    Option String × UpdatesMonitoringConfig :=
  if l.FetchTimeout ≥ l.CheckInterval then
    (some "fetch_timeout should be less than check_interval", l)
  else if l.CheckInterval < minSystemUpdatesCheckInterval then
    (none, { l with CheckInterval := minSystemUpdatesCheckInterval })
  else (none, l)

/-- src/config.go 191-196. -/
def UpdatesConfig.Validate (u : UpdatesConfig) : Option String :=
  if u.CheckInterval < minSelfUpdatesCheckInterval then
    some "check_interval must be greater than 600 seconds"
  else none

/-- `strings.HasPrefix` (external standard library), written over
character lists so that it unfolds by computation. -/
def strStartsWith (s p : String) : Bool := p.toList.isPrefixOf s.toList

/-- Model of `filepath.IsAbs` (external standard library): on Windows a
path is absolute when it is a UNC path or has a drive letter followed by a
separator; elsewhere when it starts with a slash. -/
def goFilepathIsAbs (goos : GoOS) (p : String) : Bool :=
  match goos with
  | .windows =>
    strStartsWith p "\\\\" ||
    (match p.toList with
     | c :: ':' :: s :: _ => c.isAlpha && (s = '\\' || s = '/')
     | _ => false)
  | _ => strStartsWith p "/"

/-- src/config.go 209-223.  `filepath.IsAbs` is OS-dependent, so the host
OS is an explicit parameter. -/
def JobMonitoringConfig.Validate (goos : GoOS) (j : JobMonitoringConfig) : Option String :=
  if j.SpoolDirPath.length = 0 then some "spool_dir is empty"
  else if ¬ goFilepathIsAbs goos j.SpoolDirPath then some "spool_dir path must be absolute"
  else if ¬ isValidJobMonitoringSeverity j.Severity then some "severity has invalid value"
  else none

/-! ## Defaults (src/config.go 245-355) -/

def defaultMinValuableConfig : MinValuableConfig :=
  { LogLevel := LogLevelError
    IOMode := IOModeHTTP
    OutFile := ""
    HubURL := ""
    HubUser := ""
    HubPassword := "" }

/-- Modelled from the spec: the self-update feed URL constant is declared
outside src/; only its identity matters to the pipeline in scope, never its
contents. -/
def SelfUpdatesFeedURL : String := "self-updates-feed-url"

/-- src/config.go 245-329: the Defaults Builder.  `defaultLogPath` is the
process-global computed at startup from the executable location and OS; it
is threaded in as a parameter.  Fields the Go literal leaves unset carry
their Go zero values. -/
def NewConfig (goos : GoOS) (defaultLogPath : String) : Config :=
  let cfg : Config :=
    { OperationMode := OperationModeFull
      Interval := 90
      HeartbeatInterval := 15
      PidFile := ""
      LogFile := defaultLogPath
      LogSyslog := ""
      MinValuable := defaultMinValuableConfig
      HubGzip := true
      HubRequestTimeout := 30
      HubProxy := ""
      HubProxyUser := ""
      HubProxyPassword := ""
      CPULoadDataGather := ["avg1"]
      CPUUtilDataGather := ["avg1"]
      CPUUtilTypes := ["user", "system", "idle", "iowait"]
      FSTypeInclude := ["ext3", "ext4", "xfs", "jfs", "ntfs", "btrfs", "hfs", "apfs", "fat32", "smbfs", "nfs"]
      FSPathExclude := []
      FSPathExcludeRecurse := false
      FSMetrics := ["free_B", "free_percent", "total_B", "read_B_per_s", "write_B_per_s", "read_ops_per_s", "write_ops_per_s"]
      FSIdentifyMountpointsByDevice := true
      NetInterfaceExclude := []
      NetInterfaceExcludeRegex := ["^vnet(.*)$", "^virbr(.*)$", "^vmnet(.*)$", "^vEthernet(.*)$"]
      NetInterfaceExcludeDisconnected := true
      NetInterfaceExcludeLoopback := true
      NetMetrics := ["in_B_per_s", "out_B_per_s", "total_out_B_per_s", "total_in_B_per_s"]
      NetInterfaceMaxSpeed := ""
      SystemFields := ["uname", "os_kernel", "os_family", "os_arch", "cpu_model", "fqdn", "memory_total_B"]
      VirtualMachinesStat := []
      HardwareInventory := true
      DiscoverAutostartingServicesOnly := true
      CPUUtilisationAnalysis :=
        { Threshold := 10
          Function := "lt"
          Metric := "idle"
          GatheringMode := "avg1"
          ReportProcesses := 5
          TrailingProcessAnalysisMinutes := 5 }
      TemperatureMonitoring := true
      SoftwareRAIDMonitoring := true
      SMARTMonitoring := false
      SMARTCtl := ""
      Logs := { HubFile := "" }
      StorCLI := { BinaryPath := "" }
      JobMonitoring :=
        { SpoolDirPath := "/var/lib/cagent/jobmon"
          RecordStdErr := true
          RecordStdOut := false
          Severity := SeverityAlert }
      SystemUpdatesChecks := { Enabled := true, FetchTimeout := 30, CheckInterval := 14400 }
      MysqlMonitoring := { validationError := none }
      ProcessMonitoring := processesGetDefaultConfig
      Updates := { Enabled := false, URL := "", CheckInterval := 21600 }
      DockerMonitoring := { Enabled := true }
      MemMonitoring := true
      CPUMonitoring := true
      FSMonitoring := true
      NetMonitoring := true
      OnHTTP5xxRetries := 4
      OnHTTP5xxRetryInterval := 2 }
  match goos with
  | .windows =>
    { cfg with
      NetInterfaceExcludeRegex := cfg.NetInterfaceExcludeRegex ++ ["Pseudo-Interface"]
      CPULoadDataGather := []
      CPUUtilTypes := ["user", "system", "idle"]
      VirtualMachinesStat := ["hyper-v"]
      JobMonitoring := { cfg.JobMonitoring with SpoolDirPath := "C:\\ProgramData\\cagent\\jobmon" }
      Updates := { cfg.Updates with Enabled := true, URL := SelfUpdatesFeedURL } }
  | .darwin =>
    { cfg with JobMonitoring := { cfg.JobMonitoring with SpoolDirPath := "/usr/local/var/lib/cagent/jobmon" } }
  | .other =>
    { cfg with FSMetrics := cfg.FSMetrics ++ ["inodes_used_percent"] }

/-! ## Environment overlay (src/config.go 357-369) -/

/-- The three environment variables read by `applyEnv`, as
`os.LookupEnv` results: `none` means unset, `some v` means set to `v`
(possibly the empty string). -/
structure EnvVars where
  hubURL : Option String
  hubUser : Option String
  hubPassword : Option String
deriving DecidableEq, Repr

/-- src/config.go 357-369: `CAGENT_HUB_URL`, `CAGENT_HUB_USER`,
`CAGENT_HUB_PASSWORD` applied in order. -/
def MinValuableConfig.applyEnv (env : EnvVars) (force : Bool)
    (mvc : MinValuableConfig) : MinValuableConfig :=
  let mvc := match env.hubURL with
    | some val => if mvc.HubURL = "" ∨ force = true then { mvc with HubURL := val } else mvc
    | none => mvc
  let mvc := match env.hubUser with
    | some val => if mvc.HubUser = "" ∨ force = true then { mvc with HubUser := val } else mvc
    | none => mvc
  match env.hubPassword with
    | some val => if mvc.HubPassword = "" ∨ force = true then { mvc with HubPassword := val } else mvc
    | none => mvc

/-- src/config.go 331-348. -/
def NewMinimumConfig (goos : GoOS) (env : EnvVars) : MinValuableConfig :=
  let cfg := defaultMinValuableConfig.applyEnv env false
  if cfg.HubURL = "" then
    { cfg with
      IOMode := IOModeFile
      OutFile := if goos = .windows then "NUL" else "/dev/null" }
  else { cfg with IOMode := IOModeHTTP }

/-! ## validate (src/config.go 510-575) -/

/-- Simplified model of `url.Parse` success (external standard library):
Go's parser rejects URLs containing ASCII control characters; its other,
rarer failure modes are not modelled (no claim depends on the exact
boundary, only on the outcome being a hypothesis or on the empty proxy). -/
def urlParseOk (s : String) : Bool := s.toList.all (fun c => 32 ≤ c.toNat)

/-- The proxy value after the `strings.HasPrefix` normalisation of
src/config.go 512-514: prepend `http://` when the value does not already
start with `http`. -/
def goPrefixedProxy (p : String) : String :=
  if strStartsWith p "http" then p else "http://" ++ p

/-- src/config.go 511-519: the proxy normalisation and check.  The prepend
mutates the config even when the subsequent parse fails, so the (possibly
updated) config is returned on both paths. -/
def validateProxy (cfg : Config) : Option String × Config :=
  if cfg.HubProxy ≠ "" then
    if ¬ urlParseOk (goPrefixedProxy cfg.HubProxy) then
      (some "failed to parse hub_proxy URL", { cfg with HubProxy := goPrefixedProxy cfg.HubProxy })
    else (none, { cfg with HubProxy := goPrefixedProxy cfg.HubProxy })
  else (none, cfg)

/-- src/config.go 552-574: the tail of `validate` from the mysql check on,
applied to the config as it stands after the system-updates clamp. -/
def validateTail (cfg : Config) : Option String × Config :=
  match MysqlConfig.Validate cfg.MysqlMonitoring with
  | some e => (some ("invalid [mysql_monitoring] config: " ++ e), cfg)
  | none =>
    match UpdatesConfig.Validate cfg.Updates with
    | some e => (some ("invalid [updates] config: " ++ e), cfg)
    | none =>
      if cfg.OnHTTP5xxRetries < 0 ∨ cfg.OnHTTP5xxRetries > 5 then
        (none, { cfg with OnHTTP5xxRetries := 5 })
      else if cfg.OnHTTP5xxRetryInterval < 1 ∨ cfg.OnHTTP5xxRetryInterval > 3 then
        (none, { cfg with OnHTTP5xxRetryInterval := 3 })
      else (none, cfg)

/-- src/config.go 521-575: the rules after the proxy check, in source
order.  The successful system-updates validation commits the (possibly
clamped) block back into the config before the remaining rules run, which
is how the in-place mutation of the Go receiver behaves. -/
def validateRest (goos : GoOS) (cfg : Config) : Option String × Config :=
  if cfg.Interval < minIntervalValue then
    (some "interval value must be >= 30.0", cfg)
  else if cfg.HeartbeatInterval < minHeartbeatIntervalValue then
    (some "heartbeat value must be >= 5.0", cfg)
  else if ¬ strInSlice cfg.OperationMode operationModes then
    (some "invalid operation_mode supplied", cfg)
  else match parseNetInterfaceMaxSpeed cfg.NetInterfaceMaxSpeed with
  | .error e => (some ("invalid net_interface_max_speed value supplied: " ++ e), cfg)
  | .ok _ =>
    if cfg.HubRequestTimeout < minHubRequestTimeout ∨ cfg.HubRequestTimeout > maxHubRequestTimeout then
      (some "hub_request_timeout must be between 1 and 600", cfg)
    else match JobMonitoringConfig.Validate goos cfg.JobMonitoring with
    | some e => (some ("invalid [jobmon] config: " ++ e), cfg)
    | none =>
      match UpdatesMonitoringConfig.Validate cfg.SystemUpdatesChecks with
      | (some e, _) => (some ("invalid [system_updates_checks] config: " ++ e), cfg)
      | (none, sys) => validateTail { cfg with SystemUpdatesChecks := sys }

/-- src/config.go 510-575: `(cfg *Config) validate()`.  The Go method
mutates `cfg` in place and returns an error; the model returns the error
alongside the final state of the config (mutations made before an error
persist, as in Go). -/
def validate (goos : GoOS) (cfg : Config) : Option String × Config :=
  match validateProxy cfg with
  | (some e, cfg1) => (some e, cfg1)
  | (none, cfg1) => validateRest goos cfg1

/-! ## migrate (src/config.go 604-613) -/

/-- src/config.go 604-613.  `metadata.IsDefined("windows_updates_watcher_interval")`
is threaded in as the boolean `watcherIntervalDefined`; `runtime.GOOS` as
`goos`.  The Go assignment `uint32(...)` truncates the 64-bit value. -/
def Config.migrate (goos : GoOS) (cfg : Config) (cfgDeprecated : ConfigDeprecated)
    (watcherIntervalDefined : Bool) : Config :=
  if goos = .windows ∧ watcherIntervalDefined = true then
    if cfgDeprecated.WindowsUpdatesWatcherInterval ≤ 0 then
      { cfg with SystemUpdatesChecks := { cfg.SystemUpdatesChecks with Enabled := false } }
    else
      { cfg with SystemUpdatesChecks := { cfg.SystemUpdatesChecks with
          CheckInterval := cfgDeprecated.WindowsUpdatesWatcherInterval.toNat % 2 ^ 32 } }
  else cfg

/-! ## Filesystem model and GenerateDefaultConfigFile (src/config.go 442-478)

The local filesystem is modelled as a finite map from paths to file
contents plus a set of directories.  Permission failures are not modelled
(`MkdirAll` and `OpenFile(O_WRONLY|O_CREATE)` always succeed here); the
claim in scope concerns only the existing-file refusal, which is decided by
`os.Stat` / `os.IsExist`. -/

/-- The error taxonomy `os.IsExist` / `os.IsNotExist` discriminate on.
`os.Stat` reports `notExist` for a missing path and no error for a present
one; `alreadyExists` only ever arises from operations like `O_EXCL` opens,
which this code never performs. -/
inductive GoError where
  | notExist
  | alreadyExists
deriving DecidableEq, Repr

def osIsExist : Option GoError → Bool
  | some .alreadyExists => true
  | _ => false

def osIsNotExist : Option GoError → Bool
  | some .notExist => true
  | _ => false

structure GoFS where
  files : List (String × String)
  dirs : List String
deriving DecidableEq, Repr

def GoFS.read (fs : GoFS) (path : String) : Option String := fs.files.lookup path

def GoFS.entryExists (fs : GoFS) (path : String) : Bool :=
  (fs.files.lookup path).isSome || fs.dirs.contains path

def osStat (fs : GoFS) (path : String) : Option GoError :=
  if fs.entryExists path then none else some .notExist

/-- Model of `filepath.Dir` for slash-separated paths (external standard
library): everything before the final separator, `"."` when there is none,
`"/"` for a root-level path. -/
def filepathDir (p : String) : String :=
  let cs := p.toList
  match ((List.range cs.length).filter (fun i => cs.get? i = some '/')).getLast? with
  | none => "."
  | some i => if i = 0 then "/" else ⟨cs.take i⟩

def GoFS.mkdirAll (fs : GoFS) (dir : String) : GoFS :=
  { fs with dirs := dir :: fs.dirs }

/-- Writing through a descriptor opened with `O_WRONLY|O_CREATE` (no
`O_TRUNC`): the file is created empty when absent, and the written bytes
overlay the old content starting at offset zero, leaving any longer tail in
place. -/
def GoFS.writeFileAt (fs : GoFS) (path content : String) : GoFS :=
  let old := ((fs.files.lookup path).getD "").toList
  let newContent : String := content ++ ⟨old.drop content.length⟩
  { fs with files := (path, newContent) :: fs.files.filter (fun kv => kv.1 ≠ path) }

def configAutogeneratedHeadline : String :=
  "# This is an auto-generated config to connect with the cloudradar service\n# To see all options of cagent run cagent -p\n\n"

/-- Model of encoding a `MinValuableConfig` with the external TOML encoder:
a deterministic, non-empty rendering of the six fields.  The exact text is
outside the spec's scope; the config-generation claims depend only on the
write happening or not. -/
def encodeMVC (m : MinValuableConfig) : String :=
  "log_level = " ++ m.LogLevel ++ "\nio_mode = " ++ m.IOMode ++
  "\nout_file = " ++ m.OutFile ++ "\nhub_url = " ++ m.HubURL ++
  "\nhub_user = " ++ m.HubUser ++ "\nhub_password = " ++ m.HubPassword ++ "\n"

/-- src/config.go 442-478, translated line by line: the stat /
`os.IsExist` guard, conditional `MkdirAll` of the parent directory, open
with `O_WRONLY|O_CREATE`, write of the headline, then the encoded
config. -/
def GenerateDefaultConfigFile (fs : GoFS) (mvc : MinValuableConfig)
    (configFilePath : String) : Except String GoFS :=
  if osIsExist (osStat fs configFilePath) then
    .error ("config file already exists at path: " ++ configFilePath)
  else
    let configPathDir := filepathDir configFilePath
    let fs1 := if osIsNotExist (osStat fs configPathDir) then fs.mkdirAll configPathDir else fs
    .ok (fs1.writeFileAt configFilePath (configAutogeneratedHeadline ++ encodeMVC mvc))

/-! ## Spec-side comparison definitions

These two definitions follow the spec's words, not the source, and exist
only to be compared against `parseNetInterfaceMaxSpeed`: the spec describes
the accepted bandwidth strings as "`<positive decimal><unit>` where unit ∈
{K, M, G}". -/

/-- Following the spec's words: a decimal numeral with an optional
fractional part — no sign, no exponent — whose value is positive. -/
def specPositiveDecimal (s : String) : Bool :=
  let cs := s.toList
  let ip := cs.takeWhile Char.isDigit
  let rest := cs.dropWhile Char.isDigit
  match rest with
  | [] => (¬ ip.isEmpty) && ip.any (fun c => c ≠ '0')
  | '.' :: r =>
    r.all Char.isDigit && ((¬ ip.isEmpty) || (¬ r.isEmpty)) &&
      (ip.any (fun c => c ≠ '0') || r.any (fun c => c ≠ '0'))
  | _ => false

/-- Following the spec's words: a positive decimal number followed by one
of the units K, M, G. -/
def specNetSpeedForm (s : String) : Bool :=
  match s.toList.getLast? with
  | some u => (u = 'K' || u = 'M' || u = 'G') && specPositiveDecimal ⟨s.toList.dropLast⟩
  | none => false

/-- A concrete filesystem in which a config file already exists at the
default path. -/
def fsWithExistingConfig : GoFS :=
  { files := [("/etc/cagent/cagent.conf", "old-config-contents")]
    dirs := ["/etc/cagent"] }

/-- The tuple of every `Config` field that `validate` must leave untouched:
every field except `HubProxy`, `OnHTTP5xxRetries`, `OnHTTP5xxRetryInterval`
and `SystemUpdatesChecks.CheckInterval` (the system-updates block is listed
through its other two fields). -/
def preservedFields (c : Config) :=
  (c.OperationMode, c.Interval, c.HeartbeatInterval, c.PidFile, c.LogFile, c.LogSyslog,
   c.MinValuable, c.HubGzip, c.HubRequestTimeout, c.HubProxyUser, c.HubProxyPassword,
   c.CPULoadDataGather, c.CPUUtilDataGather, c.CPUUtilTypes, c.FSTypeInclude, c.FSPathExclude,
   c.FSPathExcludeRecurse, c.FSMetrics, c.FSIdentifyMountpointsByDevice, c.NetInterfaceExclude,
   c.NetInterfaceExcludeRegex, c.NetInterfaceExcludeDisconnected, c.NetInterfaceExcludeLoopback,
   c.NetMetrics, c.NetInterfaceMaxSpeed, c.SystemFields, c.VirtualMachinesStat,
   c.HardwareInventory, c.DiscoverAutostartingServicesOnly, c.CPUUtilisationAnalysis,
   c.TemperatureMonitoring, c.SoftwareRAIDMonitoring, c.SMARTMonitoring, c.SMARTCtl, c.Logs,
   c.StorCLI, c.JobMonitoring, c.MysqlMonitoring, c.ProcessMonitoring, c.Updates,
   c.DockerMonitoring, c.MemMonitoring, c.CPUMonitoring, c.FSMonitoring, c.NetMonitoring,
   c.SystemUpdatesChecks.Enabled, c.SystemUpdatesChecks.FetchTimeout)

/-- A concrete configuration exercising the retry-clamp path: the
non-Windows defaults with both HTTP 5xx retry fields out of range. -/
def cfgRetriesOutOfRange : Config :=
  { NewConfig GoOS.other "/var/log/cagent/cagent.log" with
      OnHTTP5xxRetries := 9
      OnHTTP5xxRetryInterval := 7 }

/-- A concrete configuration sitting exactly at the push-interval and
heartbeat floors. -/
def cfgAtFloors : Config :=
  { NewConfig GoOS.other "/var/log/cagent/cagent.log" with
      Interval := 30
      HeartbeatInterval := 5 }

/-! # Theorems -/

/-- C10: on every host OS branch and for every computed default log path,
the Config built by `NewConfig` passes `validate` with no error, and
`validate` leaves it byte-for-byte unchanged: the built-in defaults are
self-consistent without any file or environment input. -/
theorem c10_defaults_validate_clean (goos : GoOS) (defaultLogPath : String) :
    validate goos (NewConfig goos defaultLogPath) = (none, NewConfig goos defaultLogPath) := by
  cases goos <;> rfl

/-- C1 (code bug): at a path where a file already exists,
`GenerateDefaultConfigFile` does NOT return an error and overwrites the
file, because the guard `os.IsExist(err)` is applied to the result of
`os.Stat`, which returns a nil error for an existing file — `os.IsExist`
is false both for nil and for the not-exist error, so the refusal branch
(and its "already exists" error message) is unreachable: the function
proceeds to open the file with `O_WRONLY|O_CREATE` and writes the
bootstrap config over it. -/
theorem c1_generate_over_existing_file_succeeds :
    osIsExist (osStat fsWithExistingConfig "/etc/cagent/cagent.conf") = false ∧
    ∃ fs2,
      GenerateDefaultConfigFile fsWithExistingConfig defaultMinValuableConfig
          "/etc/cagent/cagent.conf" = .ok fs2 ∧
      fs2.read "/etc/cagent/cagent.conf" ≠ some "old-config-contents" := by
  refine ⟨rfl, _, rfl, by decide⟩

/-- C4 (counterexample): a self-update check interval of exactly 600
seconds does not exceed the 600-second floor, yet `UpdatesConfig.Validate`
accepts it (the source checks `CheckInterval < 600`, so the floor itself
passes; only the error message speaks of "greater than"). -/
theorem c4_counterexample_floor_accepted :
    ¬ (600 > minSelfUpdatesCheckInterval) ∧
    UpdatesConfig.Validate { Enabled := false, URL := "", CheckInterval := 600 } = none := by
  exact ⟨by decide, rfl⟩

/-- C4 (amended): `UpdatesConfig.Validate` returns an error exactly when
`CheckInterval` is below the 600-second floor; the floor itself and
anything above it pass. -/
theorem c4_self_update_check_interval (u : UpdatesConfig) :
    UpdatesConfig.Validate u = none ↔ minSelfUpdatesCheckInterval ≤ u.CheckInterval := by
  unfold UpdatesConfig.Validate
  split
  · next h => simp [Nat.not_le.mpr h]
  · next h => simp [Nat.not_lt.mp h]

/-- C4 witness: the default self-update interval 21600 is accepted. -/
theorem c4_self_update_check_interval_witness :
    UpdatesConfig.Validate { Enabled := true, URL := "", CheckInterval := 21600 } = none :=
  (c4_self_update_check_interval _).mpr (by decide)

/-- C6 (counterexample): the deprecated-key migration is gated on the host
OS being Windows, which the claim omits — on another OS a present key with
value 0 leaves the system-updates feature enabled — and the Go assignment
`uint32(...)` truncates: a present value of 2^32 sets the check interval
to 0, not to 2^32. -/
theorem c6_counterexample_os_and_truncation :
    ((NewConfig GoOS.other "log").migrate GoOS.other ⟨0⟩ true).SystemUpdatesChecks.Enabled = true ∧
    ((NewConfig GoOS.windows "log").migrate GoOS.windows ⟨4294967296⟩
        true).SystemUpdatesChecks.CheckInterval = 0 := by
  exact ⟨rfl, rfl⟩

/-- C6 (amended): on Windows hosts, when the decode metadata marks the
deprecated watcher-interval key as present, `migrate` disables the
system-updates-checks feature when the deprecated value is ≤ 0 and sets
`SystemUpdatesChecks.CheckInterval` to the value truncated to uint32
(equal to the value itself whenever it fits, e.g. 7200 yields 7200) when
it is > 0; on non-Windows hosts, or when the key is absent from the
metadata, `migrate` changes nothing. -/
theorem c6_migrate_behaviour (goos : GoOS) (cfg : Config) (dep : ConfigDeprecated)
    (keyDefined : Bool) :
    (goos = GoOS.windows → keyDefined = true →
      (dep.WindowsUpdatesWatcherInterval ≤ 0 →
        cfg.migrate goos dep keyDefined =
          { cfg with SystemUpdatesChecks :=
              { cfg.SystemUpdatesChecks with Enabled := false } }) ∧
      (0 < dep.WindowsUpdatesWatcherInterval →
        cfg.migrate goos dep keyDefined =
          { cfg with SystemUpdatesChecks :=
              { cfg.SystemUpdatesChecks with
                CheckInterval := dep.WindowsUpdatesWatcherInterval.toNat % 2 ^ 32 } })) ∧
    (¬ (goos = GoOS.windows ∧ keyDefined = true) →
      cfg.migrate goos dep keyDefined = cfg) := by
  unfold Config.migrate
  refine ⟨fun hw hd => ⟨fun hle => ?_, fun hpos => ?_⟩, fun hn => ?_⟩
  · rw [if_pos ⟨hw, hd⟩, if_pos hle]
  · rw [if_pos ⟨hw, hd⟩, if_neg (by omega)]
  · rw [if_neg hn]

/-- C6 witness: on Windows with the key present at 7200, the replacement
interval is set to 7200. -/
theorem c6_migrate_behaviour_witness :
    ((NewConfig GoOS.windows "log").migrate GoOS.windows ⟨7200⟩
        true).SystemUpdatesChecks.CheckInterval = 7200 := by
  have h := ((c6_migrate_behaviour GoOS.windows (NewConfig GoOS.windows "log") ⟨7200⟩
    true).1 rfl rfl).2 (by decide)
  rw [h]
  rfl

/-- C8: `NewMinimumConfig` applies the fill-if-empty environment overlay to
the default minimal config, then: an empty resulting hub URL yields file
I/O mode with the OS-specific null-device output target ("NUL" on Windows,
"/dev/null" otherwise); a non-empty hub URL yields HTTP I/O mode. -/
theorem c8_new_minimum_config_io_mode (goos : GoOS) (env : EnvVars) :
    ((NewMinimumConfig goos env).HubURL = "" →
      (NewMinimumConfig goos env).IOMode = IOModeFile ∧
      (NewMinimumConfig goos env).OutFile =
        (if goos = GoOS.windows then "NUL" else "/dev/null")) ∧
    ((NewMinimumConfig goos env).HubURL ≠ "" →
      (NewMinimumConfig goos env).IOMode = IOModeHTTP) := by
  unfold NewMinimumConfig
  by_cases h : (defaultMinValuableConfig.applyEnv env false).HubURL = "" <;> simp [h]

/-- C8 witness: with no environment variables set, the bootstrap minimal
config on a non-Windows host is in file mode writing to /dev/null. -/
theorem c8_new_minimum_config_io_mode_witness :
    (NewMinimumConfig GoOS.other ⟨none, none, none⟩).IOMode = IOModeFile ∧
    (NewMinimumConfig GoOS.other ⟨none, none, none⟩).OutFile = "/dev/null" := by
  have h := (c8_new_minimum_config_io_mode GoOS.other ⟨none, none, none⟩).1 rfl
  exact ⟨h.1, h.2.trans (by decide)⟩

/-- C7: for each of the three fields of `MinValuableConfig`, `applyEnv` in
fill-if-empty mode (`force = false`) overwrites the field with the
environment variable's value only when the variable is set and the field is
currently empty; in force mode it overwrites whenever the variable is set;
an unset variable leaves the field unchanged in both modes. -/
theorem c7_applyEnv_modes (env : EnvVars) (force : Bool) (mvc : MinValuableConfig) :
    (env.hubURL = none → (mvc.applyEnv env force).HubURL = mvc.HubURL) ∧
    (∀ v, env.hubURL = some v →
      (force = false → mvc.HubURL = "" → (mvc.applyEnv env force).HubURL = v) ∧
      (force = false → mvc.HubURL ≠ "" → (mvc.applyEnv env force).HubURL = mvc.HubURL) ∧
      (force = true → (mvc.applyEnv env force).HubURL = v)) ∧
    (env.hubUser = none → (mvc.applyEnv env force).HubUser = mvc.HubUser) ∧
    (∀ v, env.hubUser = some v →
      (force = false → mvc.HubUser = "" → (mvc.applyEnv env force).HubUser = v) ∧
      (force = false → mvc.HubUser ≠ "" → (mvc.applyEnv env force).HubUser = mvc.HubUser) ∧
      (force = true → (mvc.applyEnv env force).HubUser = v)) ∧
    (env.hubPassword = none → (mvc.applyEnv env force).HubPassword = mvc.HubPassword) ∧
    (∀ v, env.hubPassword = some v →
      (force = false → mvc.HubPassword = "" → (mvc.applyEnv env force).HubPassword = v) ∧
      (force = false → mvc.HubPassword ≠ "" →
        (mvc.applyEnv env force).HubPassword = mvc.HubPassword) ∧
      (force = true → (mvc.applyEnv env force).HubPassword = v)) := by
  obtain ⟨u, s, p⟩ := env
  cases u <;> cases s <;> cases p <;> cases force <;>
    by_cases hU : mvc.HubURL = "" <;> by_cases hS : mvc.HubUser = "" <;>
      by_cases hP : mvc.HubPassword = "" <;>
        simp_all [MinValuableConfig.applyEnv]

/-- C7 witness: with the URL variable set and the field empty, the URL is
filled; with the user variable set but the field non-empty, fill-if-empty
keeps the old value; with the password variable unset, the field stays. -/
theorem c7_applyEnv_modes_witness :
    ((⟨"error", "http", "", "", "u0", "p0"⟩ : MinValuableConfig).applyEnv
        ⟨some "http://hub", some "u1", none⟩ false).HubURL = "http://hub" ∧
    ((⟨"error", "http", "", "", "u0", "p0"⟩ : MinValuableConfig).applyEnv
        ⟨some "http://hub", some "u1", none⟩ false).HubUser = "u0" ∧
    ((⟨"error", "http", "", "", "u0", "p0"⟩ : MinValuableConfig).applyEnv
        ⟨some "http://hub", some "u1", none⟩ false).HubPassword = "p0" := by
  have h := c7_applyEnv_modes ⟨some "http://hub", some "u1", none⟩ false
    ⟨"error", "http", "", "", "u0", "p0"⟩
  exact ⟨(h.2.1 "http://hub" rfl).1 rfl rfl,
    (h.2.2.2.1 "u1" rfl).2.1 rfl (by decide),
    h.2.2.2.2.1 rfl⟩

/-- Helper: the proxy stage changes at most the `HubProxy` field. -/
theorem validateProxy_snd_frame (cfg : Config) :
    (validateProxy cfg).2 = { cfg with HubProxy := (validateProxy cfg).2.HubProxy } := by
  unfold validateProxy
  split
  · split <;> rfl
  · rfl

/-- Helper: the proxy stage reports no error when the proxy is empty or the
normalised proxy URL parses. -/
theorem validateProxy_fst_none (cfg : Config)
    (h : cfg.HubProxy = "" ∨ urlParseOk (goPrefixedProxy cfg.HubProxy) = true) :
    (validateProxy cfg).1 = none := by
  unfold validateProxy
  by_cases hp : cfg.HubProxy = ""
  · rw [if_neg (not_not_intro hp)]
  · rw [if_pos hp]
    rcases h with h | h
    · exact absurd h hp
    · rw [if_neg (not_not_intro h)]

/-- Helper: `UpdatesMonitoringConfig.Validate` never changes `Enabled` or
`FetchTimeout`. -/
theorem umc_validate_preserves (l : UpdatesMonitoringConfig) :
    (UpdatesMonitoringConfig.Validate l).2.Enabled = l.Enabled ∧
    (UpdatesMonitoringConfig.Validate l).2.FetchTimeout = l.FetchTimeout := by
  unfold UpdatesMonitoringConfig.Validate
  split
  · exact ⟨rfl, rfl⟩
  · split <;> exact ⟨rfl, rfl⟩

/-- Helper: the tail of `validate` reports no error when the mysql and
self-update validators pass (the two clamp rules never fail). -/
theorem validateTail_fst_none (cfg : Config)
    (hmysql : MysqlConfig.Validate cfg.MysqlMonitoring = none)
    (hupd : UpdatesConfig.Validate cfg.Updates = none) :
    (validateTail cfg).1 = none := by
  unfold validateTail
  simp only [hmysql, hupd]
  split
  · rfl
  · split <;> rfl

/-- Helper: when the retry count is out of range, the tail clamps it to 5
and short-circuits with success, leaving the retry interval alone. -/
theorem validateTail_clamp (cfg : Config)
    (hmysql : MysqlConfig.Validate cfg.MysqlMonitoring = none)
    (hupd : UpdatesConfig.Validate cfg.Updates = none)
    (hretry : cfg.OnHTTP5xxRetries < 0 ∨ cfg.OnHTTP5xxRetries > 5) :
    validateTail cfg = (none, { cfg with OnHTTP5xxRetries := 5 }) := by
  unfold validateTail
  simp only [hmysql, hupd]
  rw [if_pos hretry]

/-- Helper: when every rule of `validateRest` passes (the final two
clamp-and-warn rules always pass), no error is reported. -/
theorem validateRest_fst_none (goos : GoOS) (cfg : Config)
    (hint : ¬ cfg.Interval < minIntervalValue)
    (hhb : ¬ cfg.HeartbeatInterval < minHeartbeatIntervalValue)
    (hmode : strInSlice cfg.OperationMode operationModes = true)
    (hspeed : ∃ n, parseNetInterfaceMaxSpeed cfg.NetInterfaceMaxSpeed = Except.ok n)
    (htimeout : ¬ (cfg.HubRequestTimeout < minHubRequestTimeout ∨
      cfg.HubRequestTimeout > maxHubRequestTimeout))
    (hjob : JobMonitoringConfig.Validate goos cfg.JobMonitoring = none)
    (hsys : (UpdatesMonitoringConfig.Validate cfg.SystemUpdatesChecks).1 = none)
    (hmysql : MysqlConfig.Validate cfg.MysqlMonitoring = none)
    (hupd : UpdatesConfig.Validate cfg.Updates = none) :
    (validateRest goos cfg).1 = none := by
  obtain ⟨n, hn⟩ := hspeed
  rcases hveq : UpdatesMonitoringConfig.Validate cfg.SystemUpdatesChecks with ⟨err, sys⟩
  rw [hveq] at hsys
  simp only [Prod.fst] at hsys
  subst hsys
  unfold validateRest
  simp only [hn, hveq, hjob, if_neg hint, if_neg hhb, if_neg htimeout,
    if_neg (not_not_intro hmode)]
  exact validateTail_fst_none _ hmysql hupd

/-- C2: for every Config whose HTTP 5xx retry count is outside [0,5] and
whose fields checked by the earlier rules (proxy, intervals, operation
mode, max-speed string, request timeout, jobmon, system-update, mysql,
self-update) are all valid, `validate` returns success, sets the retry
count to 5, and leaves the retry interval unchanged even when it is
outside [1,3]: the clamp short-circuits and rule 12 is skipped. -/
theorem c2_retries_clamp_short_circuit (goos : GoOS) (cfg : Config)
    (hproxy : cfg.HubProxy = "" ∨ urlParseOk (goPrefixedProxy cfg.HubProxy) = true)
    (hint : ¬ cfg.Interval < minIntervalValue)
    (hhb : ¬ cfg.HeartbeatInterval < minHeartbeatIntervalValue)
    (hmode : strInSlice cfg.OperationMode operationModes = true)
    (hspeed : ∃ n, parseNetInterfaceMaxSpeed cfg.NetInterfaceMaxSpeed = Except.ok n)
    (htimeout : ¬ (cfg.HubRequestTimeout < minHubRequestTimeout ∨
      cfg.HubRequestTimeout > maxHubRequestTimeout))
    (hjob : JobMonitoringConfig.Validate goos cfg.JobMonitoring = none)
    (hsys : (UpdatesMonitoringConfig.Validate cfg.SystemUpdatesChecks).1 = none)
    (hmysql : MysqlConfig.Validate cfg.MysqlMonitoring = none)
    (hupd : UpdatesConfig.Validate cfg.Updates = none)
    (hretry : cfg.OnHTTP5xxRetries < 0 ∨ cfg.OnHTTP5xxRetries > 5) :
    (validate goos cfg).1 = none ∧
    (validate goos cfg).2.OnHTTP5xxRetries = 5 ∧
    (validate goos cfg).2.OnHTTP5xxRetryInterval = cfg.OnHTTP5xxRetryInterval := by
  have hpn := validateProxy_fst_none cfg hproxy
  have hfr := validateProxy_snd_frame cfg
  rcases hvp : validateProxy cfg with ⟨e, c1⟩
  rw [hvp] at hpn hfr
  simp only [Prod.fst] at hpn
  simp only [Prod.snd] at hfr
  subst hpn
  have hI : c1.Interval = cfg.Interval := by rw [hfr]
  have hH : c1.HeartbeatInterval = cfg.HeartbeatInterval := by rw [hfr]
  have hM : c1.OperationMode = cfg.OperationMode := by rw [hfr]
  have hN : c1.NetInterfaceMaxSpeed = cfg.NetInterfaceMaxSpeed := by rw [hfr]
  have hT : c1.HubRequestTimeout = cfg.HubRequestTimeout := by rw [hfr]
  have hJ : c1.JobMonitoring = cfg.JobMonitoring := by rw [hfr]
  have hS : c1.SystemUpdatesChecks = cfg.SystemUpdatesChecks := by rw [hfr]
  have hQ : c1.MysqlMonitoring = cfg.MysqlMonitoring := by rw [hfr]
  have hU : c1.Updates = cfg.Updates := by rw [hfr]
  have hR : c1.OnHTTP5xxRetries = cfg.OnHTTP5xxRetries := by rw [hfr]
  have hRI : c1.OnHTTP5xxRetryInterval = cfg.OnHTTP5xxRetryInterval := by rw [hfr]
  rw [← hI] at hint
  rw [← hH] at hhb
  rw [← hM] at hmode
  rw [← hN] at hspeed
  rw [← hT] at htimeout
  rw [← hJ] at hjob
  rw [← hS] at hsys
  rw [← hQ] at hmysql
  rw [← hU] at hupd
  rw [← hR] at hretry
  obtain ⟨n, hn⟩ := hspeed
  rcases hveq : UpdatesMonitoringConfig.Validate c1.SystemUpdatesChecks with ⟨err, sys⟩
  rw [hveq] at hsys
  simp only [Prod.fst] at hsys
  subst hsys
  unfold validate
  rw [hvp]
  show (validateRest goos c1).1 = none ∧
    (validateRest goos c1).2.OnHTTP5xxRetries = 5 ∧
    (validateRest goos c1).2.OnHTTP5xxRetryInterval = cfg.OnHTTP5xxRetryInterval
  unfold validateRest
  simp only [hn, hveq, hjob, if_neg hint, if_neg hhb, if_neg htimeout,
    if_neg (not_not_intro hmode)]
  rw [validateTail_clamp { c1 with SystemUpdatesChecks := sys } hmysql hupd hretry]
  exact ⟨rfl, rfl, hRI⟩

/-- C2 witness: the out-of-range retry count 9 is clamped to 5, validation
succeeds, and the out-of-range retry interval 7 is left in place. -/
theorem c2_retries_clamp_short_circuit_witness :
    (validate GoOS.other cfgRetriesOutOfRange).1 = none ∧
    (validate GoOS.other cfgRetriesOutOfRange).2.OnHTTP5xxRetries = 5 ∧
    (validate GoOS.other cfgRetriesOutOfRange).2.OnHTTP5xxRetryInterval = 7 := by
  have h := c2_retries_clamp_short_circuit GoOS.other cfgRetriesOutOfRange
    (Or.inl rfl) (by decide) (by decide) (by decide) ⟨0, rfl⟩ (by decide)
    rfl rfl rfl rfl (by decide)
  exact ⟨h.1, h.2.1, h.2.2.trans (by decide)⟩

/-- C5: for a Config valid in all other respects, a push interval below 30
or a heartbeat interval below 5 makes `validate` fail, and at exactly the
floors (interval 30, heartbeat 5) it succeeds. -/
theorem c5_push_heartbeat_floors (goos : GoOS) (cfg : Config)
    (hproxy : cfg.HubProxy = "" ∨ urlParseOk (goPrefixedProxy cfg.HubProxy) = true)
    (hmode : strInSlice cfg.OperationMode operationModes = true)
    (hspeed : ∃ n, parseNetInterfaceMaxSpeed cfg.NetInterfaceMaxSpeed = Except.ok n)
    (htimeout : ¬ (cfg.HubRequestTimeout < minHubRequestTimeout ∨
      cfg.HubRequestTimeout > maxHubRequestTimeout))
    (hjob : JobMonitoringConfig.Validate goos cfg.JobMonitoring = none)
    (hsys : (UpdatesMonitoringConfig.Validate cfg.SystemUpdatesChecks).1 = none)
    (hmysql : MysqlConfig.Validate cfg.MysqlMonitoring = none)
    (hupd : UpdatesConfig.Validate cfg.Updates = none) :
    (cfg.Interval < minIntervalValue → (validate goos cfg).1 ≠ none) ∧
    (cfg.HeartbeatInterval < minHeartbeatIntervalValue → (validate goos cfg).1 ≠ none) ∧
    (cfg.Interval = minIntervalValue → cfg.HeartbeatInterval = minHeartbeatIntervalValue →
      (validate goos cfg).1 = none) := by
  have hpn := validateProxy_fst_none cfg hproxy
  have hfr := validateProxy_snd_frame cfg
  rcases hvp : validateProxy cfg with ⟨e, c1⟩
  rw [hvp] at hpn hfr
  simp only [Prod.fst] at hpn
  simp only [Prod.snd] at hfr
  subst hpn
  have hI : c1.Interval = cfg.Interval := by rw [hfr]
  have hH : c1.HeartbeatInterval = cfg.HeartbeatInterval := by rw [hfr]
  have hM : c1.OperationMode = cfg.OperationMode := by rw [hfr]
  have hN : c1.NetInterfaceMaxSpeed = cfg.NetInterfaceMaxSpeed := by rw [hfr]
  have hT : c1.HubRequestTimeout = cfg.HubRequestTimeout := by rw [hfr]
  have hJ : c1.JobMonitoring = cfg.JobMonitoring := by rw [hfr]
  have hS : c1.SystemUpdatesChecks = cfg.SystemUpdatesChecks := by rw [hfr]
  have hQ : c1.MysqlMonitoring = cfg.MysqlMonitoring := by rw [hfr]
  have hU : c1.Updates = cfg.Updates := by rw [hfr]
  rw [← hM] at hmode
  rw [← hN] at hspeed
  rw [← hT] at htimeout
  rw [← hJ] at hjob
  rw [← hS] at hsys
  rw [← hQ] at hmysql
  rw [← hU] at hupd
  unfold validate
  rw [hvp]
  refine ⟨?_, ?_, ?_⟩
  · intro hlt
    show (validateRest goos c1).1 ≠ none
    unfold validateRest
    rw [if_pos (by rw [hI]; exact hlt)]
    simp
  · intro hlt
    show (validateRest goos c1).1 ≠ none
    unfold validateRest
    by_cases hi : c1.Interval < minIntervalValue
    · rw [if_pos hi]; simp
    · rw [if_neg hi, if_pos (by rw [hH]; exact hlt)]; simp
  · intro hIe hHe
    show (validateRest goos c1).1 = none
    exact validateRest_fst_none goos c1 (by rw [hI, hIe]; simp) (by rw [hH, hHe]; simp)
      hmode hspeed htimeout hjob hsys hmysql hupd

/-- C5 witness: the non-Windows defaults with interval exactly 30 and
heartbeat exactly 5 validate with no error. -/
theorem c5_push_heartbeat_floors_witness :
    (validate GoOS.other cfgAtFloors).1 = none := by
  have h := c5_push_heartbeat_floors GoOS.other cfgAtFloors
    (Or.inl rfl) (by decide) ⟨0, rfl⟩ (by decide) rfl rfl rfl rfl
  exact h.2.2 rfl rfl

/-- Helper: the proxy stage never changes the preserved fields. -/
theorem validateProxy_preserves (cfg : Config) :
    preservedFields (validateProxy cfg).2 = preservedFields cfg := by
  unfold validateProxy
  split
  · split <;> rfl
  · rfl

/-- Helper: the tail never changes the preserved fields. -/
theorem validateTail_preserves (cfg : Config) :
    preservedFields (validateTail cfg).2 = preservedFields cfg := by
  unfold validateTail
  split
  · rfl
  · split
    · rfl
    · split
      · rfl
      · split <;> rfl

/-- Helper: the post-proxy rules never change the preserved fields. -/
theorem validateRest_preserves (goos : GoOS) (cfg : Config) :
    preservedFields (validateRest goos cfg).2 = preservedFields cfg := by
  obtain ⟨hE, hF⟩ := umc_validate_preserves cfg.SystemUpdatesChecks
  unfold validateRest
  split
  · rfl
  · split
    · rfl
    · split
      · rfl
      · split
        · rfl
        · split
          · rfl
          · split
            · rfl
            · split
              · rfl
              · next sys heq =>
                rw [heq] at hE hF
                simp only [Prod.snd] at hE hF
                refine (validateTail_preserves _).trans ?_
                simp only [preservedFields, hE, hF]

/-- C9: `validate` mutates at most `HubProxy`, `OnHTTP5xxRetries`,
`OnHTTP5xxRetryInterval` and `SystemUpdatesChecks.CheckInterval`; every
other field of the Config (collected in `preservedFields`) is identical
before and after the call, whether it returns an error or success. -/
theorem c9_validate_frame (goos : GoOS) (cfg : Config) :
    preservedFields (validate goos cfg).2 = preservedFields cfg := by
  have hp := validateProxy_preserves cfg
  rcases hvp : validateProxy cfg with ⟨e, c1⟩
  rw [hvp] at hp
  simp only [Prod.snd] at hp
  unfold validate
  rw [hvp]
  cases e
  · exact (validateRest_preserves goos c1).trans hp
  · exact hp

set_option maxRecDepth 100000 in
/-- C3 (counterexample): the parser's success set is strictly larger than
"a positive decimal number followed by K/M/G": the non-empty string
"1e1K" uses exponent notation, is not of the spec's form, yet parses
successfully to 10000. -/
theorem c3_counterexample_exponent_accepted :
    parseNetInterfaceMaxSpeed "1e1K" = .ok 10000 ∧
    specNetSpeedForm "1e1K" = false ∧ "1e1K" ≠ "" :=
  ⟨rfl, by decide, by decide⟩

set_option maxRecDepth 100000 in
/-- C3 (amended): "125M" parses to 125,000,000, "12.5G" to 12,500,000,000,
the empty string to 0 with no error, and "5X" and "abc" fail; in general
the parser succeeds exactly on the empty string and on strings of length at
least two whose last character is K, M or G and whose remainder is accepted
by Go's `ParseFloat` with a result that passes the positivity guard: a
positive-infinity spelling, a NaN spelling (NaN compares false against 0),
or a decimal/hexadecimal float literal whose value is positive, does not
round to zero (above `2^-1075`), and does not overflow float64 (overflow
is a range error). -/
theorem c3_max_speed_parsing :
    parseNetInterfaceMaxSpeed "125M" = .ok 125000000 ∧
    parseNetInterfaceMaxSpeed "12.5G" = .ok 12500000000 ∧
    parseNetInterfaceMaxSpeed "" = .ok 0 ∧
    (∃ e, parseNetInterfaceMaxSpeed "5X" = .error e) ∧
    (∃ e, parseNetInterfaceMaxSpeed "abc" = .error e) ∧
    (∀ s : String, (∃ n, parseNetInterfaceMaxSpeed s = .ok n) ↔
      (s = "" ∨ (2 ≤ s.length ∧
        ((s.toList.getLast?).getD ' ' = 'K' ∨ (s.toList.getLast?).getD ' ' = 'M' ∨
          (s.toList.getLast?).getD ' ' = 'G') ∧
        ∃ f, goParseFloat ⟨s.toList.dropLast⟩ = some f ∧
          (f = GoFloatVal.posInf ∨ f = GoFloatVal.nan ∨
            ∃ q, f = GoFloatVal.finite q ∧ 0 < q ∧ float64RoundsToZero q = false)))) := by
  refine ⟨rfl, rfl, rfl, ⟨_, rfl⟩, ⟨_, rfl⟩, ?_⟩
  intro s
  by_cases h0 : s = ""
  · subst h0
    constructor
    · intro _
      exact Or.inl rfl
    · intro _
      exact ⟨0, rfl⟩
  · unfold parseNetInterfaceMaxSpeed
    rw [if_neg h0]
    by_cases h1 : s.length < 2
    · rw [if_pos h1]
      constructor
      · rintro ⟨n, hn⟩
        exact Except.noConfusion hn
      · rintro (rfl | ⟨h2, -, -⟩)
        · exact absurd rfl h0
        · omega
    · rw [if_neg h1]
      rcases hq : goParseFloat ⟨s.toList.dropLast⟩ with _ | f
      · simp only [hq]
        constructor
        · rintro ⟨n, hn⟩
          exact Except.noConfusion hn
        · rintro (rfl | ⟨-, -, f2, hf2, -⟩)
          · exact absurd rfl h0
          · exact Option.noConfusion hf2
      · simp only [hq]
        by_cases hnp : f.isNonPositive = true
        · rw [if_pos hnp]
          constructor
          · rintro ⟨n, hn⟩
            exact Except.noConfusion hn
          · rintro (rfl | ⟨-, -, f2, hf2, hgood⟩)
            · exact absurd rfl h0
            · injection hf2 with h
              subst h
              rcases hgood with rfl | rfl | ⟨q, rfl, hq1, hq2⟩
              · exact Bool.noConfusion hnp
              · exact Bool.noConfusion hnp
              · simp only [GoFloatVal.isNonPositive, hq2, Bool.or_false,
                  decide_eq_true_eq] at hnp
                exact absurd hnp (not_le.mpr hq1)
        · rw [if_neg hnp]
          have hgood : f = GoFloatVal.posInf ∨ f = GoFloatVal.nan ∨
              ∃ q, f = GoFloatVal.finite q ∧ 0 < q ∧ float64RoundsToZero q = false := by
            cases f with
            | finite q =>
              simp only [GoFloatVal.isNonPositive, Bool.or_eq_true, decide_eq_true_eq,
                not_or, Bool.not_eq_true] at hnp
              exact Or.inr (Or.inr ⟨q, rfl, not_le.mp hnp.1, hnp.2⟩)
            | posInf => exact Or.inl rfl
            | negInf => exact absurd rfl hnp
            | nan => exact Or.inr (Or.inl rfl)
          by_cases hK : (s.toList.getLast?).getD ' ' = 'K'
          · rw [if_pos hK]
            exact ⟨fun _ => Or.inr ⟨by omega, Or.inl hK, f, rfl, hgood⟩,
              fun _ => ⟨_, rfl⟩⟩
          · rw [if_neg hK]
            by_cases hM : (s.toList.getLast?).getD ' ' = 'M'
            · rw [if_pos hM]
              exact ⟨fun _ => Or.inr ⟨by omega, Or.inr (Or.inl hM), f, rfl, hgood⟩,
                fun _ => ⟨_, rfl⟩⟩
            · rw [if_neg hM]
              by_cases hG : (s.toList.getLast?).getD ' ' = 'G'
              · rw [if_pos hG]
                exact ⟨fun _ => Or.inr ⟨by omega, Or.inr (Or.inr hG), f, rfl, hgood⟩,
                  fun _ => ⟨_, rfl⟩⟩
              · rw [if_neg hG]
                constructor
                · rintro ⟨n, hn⟩
                  exact Except.noConfusion hn
                · rintro (rfl | ⟨-, hu, -⟩)
                  · exact absurd rfl h0
                  · rcases hu with hu | hu | hu
                    exacts [absurd hu hK, absurd hu hM, absurd hu hG]

/-- C3 witness: the theorem evaluated at "12.5G". -/
theorem c3_max_speed_parsing_witness :
    parseNetInterfaceMaxSpeed "12.5G" = .ok 12500000000 :=
  c3_max_speed_parsing.2.1

end Cagent
